import Mathlib

/-!
# Verification of the community card application

A shallow embedding of the data model and the HTTP handlers of
`src/app/server.js` (together with the schema in the repository's SQL
init script), and proofs of the specified properties about them.

Tables are modelled as lists of row structures; `AUTO_INCREMENT`
columns as explicit counters; `TIMESTAMP DEFAULT CURRENT_TIMESTAMP`
as a logical clock incremented on every insert.  Request handlers are
pure state transformers `DB → ... → DB × Response`; the session is the
optional `userId` stored by `express-session`.
-/

namespace Community

/-- A row of the `users` table (`id`, `name`, `email`, `password_hash`). -/
structure UserRow where
  id : Nat
  name : String
  email : String
  password_hash : String
  deriving DecidableEq

/-- A row of the `categories` table (`id`, `user_id`, `name`). -/
structure CategoryRow where
  id : Nat
  user_id : Nat
  name : String
  deriving DecidableEq

/-- A row of the `cards` table (`id`, `user_id`, `category_id`, `title`,
`content`, `created_at`). -/
structure CardRow where
  id : Nat
  user_id : Nat
  category_id : Option Nat
  title : String
  content : String
  created_at : Nat
  deriving DecidableEq

/-- The database state: the three in-scope tables, the `AUTO_INCREMENT`
counters, a logical clock for `created_at`, and the two pieces of schema
state that `ensureSchema` manages (existence of the `categories` table and
of the `cards.category_id` column).  When `categoriesTableExists` is false
the `categories` list carries no meaning (the bootstrap creates the table
empty); when `cardsHasCategoryId` is false the `category_id` field of card
rows carries no meaning (the bootstrap adds the column with default
`NULL`). -/
structure DB where
  categoriesTableExists : Bool
  cardsHasCategoryId : Bool
  users : List UserRow
  categories : List CategoryRow
  cards : List CardRow
  nextUserId : Nat
  nextCategoryId : Nat
  nextCardId : Nat
  clock : Nat
  deriving DecidableEq

/-- The name of the default category inserted at registration and
backfilled by `ensureSchema` (the string literal in `server.js`). -/
def defaultCategoryName : String := "Général"

/-- Login error for an unknown email or a failed password comparison. -/
def invalidCredentialsMsg : String := "Identifiants invalides."

/-- Login error for a missing email or password. -/
def loginMissingFieldsMsg : String := "Merci de renseigner email et mot de passe."

/-- Registration error for a missing field. -/
def registerMissingFieldsMsg : String := "Tous les champs sont obligatoires."

/-- Registration error for an email that is already taken. -/
def duplicateEmailMsg : String := "Cet email est déjà utilisé."

/-- Model of the `bcryptjs` collaborator's `hash`: an injective one-way
tagging.  The claims under verification depend only on the contract that
`bcryptCompare p (bcryptHash q)` succeeds exactly when `p = q`. -/
def bcryptHash (password : String) : String := "bcrypt$" ++ password

/-- Model of the `bcryptjs` collaborator's `compare`. -/
def bcryptCompare (password hash : String) : Bool :=
  hash == bcryptHash password

/-- JavaScript falsiness of an optional form field: `undefined` (absent
field) and the empty string are the only falsy values a form string can
take. -/
def jsFalsy (v : Option String) : Bool :=
  match v with
  | none => true
  | some s => s == ""

/-- The expression `v || null` applied to a form field, as in the card
create and card update handlers (`categoryId || null`). -/
def jsOrNull (v : Option String) : Option String :=
  if jsFalsy v then none else v

/-- Decimal evaluation of a digit list, accumulator style. -/
def sqlDigits : List Char → Nat → Option Nat
  | [], acc => some acc
  | c :: rest, acc =>
    if c.isDigit then sqlDigits rest (acc * 10 + (c.toNat - 48)) else none

/-- Model of the store coercing a string parameter into an `INT` column
(`mysql2` sends form values as strings): a non-empty decimal string
evaluates to its numeric value, anything else to `none`.  The claims only
exercise decimal strings. -/
def sqlIntOfString (s : String) : Option Nat :=
  match s.data with
  | [] => none
  | cs => sqlDigits cs 0

/-- The `category_id` value the store derives for the card statements'
parameter `categoryId || null`: `some none` (SQL `NULL`) for a falsy form
value, `some (some k)` for a decimal string, and `none` — a statement
error — for a truthy non-numeric string, which strict-mode MySQL rejects
for the `INT` column instead of storing anything. -/
def categoryParamVal (v : Option String) : Option (Option Nat) :=
  match jsOrNull v with
  | none => some none
  | some s =>
    match sqlIntOfString s with
    | some k => some (some k)
    | none => none

/-- The `fk_cards_category` foreign key of the init script: a stored
`category_id` must be `NULL` or name an existing `categories` row —
any row, with no condition on its owner. -/
def fkCategoryOk (cats : List CategoryRow) (cid : Option Nat) : Bool :=
  match cid with
  | none => true
  | some k => cats.any (fun c => c.id == k)

/-- Result of the `requireAuth` middleware. -/
inductive AuthCheck where
  | redirect
  | authed (uid : Nat)
  deriving DecidableEq

/-- The `requireAuth` middleware: `if (!req.session.userId)` redirect to
`/login`, otherwise continue.  JavaScript falsiness on a number makes `0`
unauthenticated as well as an absent `userId`. -/
def requireAuth (session : Option Nat) : AuthCheck :=
  match session with
  | none => .redirect
  | some uid => if uid = 0 then .redirect else .authed uid

/-- A row of the dashboard query: `cards.id`, `cards.title`,
`cards.content`, `cards.created_at`, and `categories.id AS category_id` /
`categories.name AS category_name` from the `LEFT JOIN` (both `NULL` when
the card has no matching category). -/
structure DashRow where
  id : Nat
  title : String
  content : String
  created_at : Nat
  category_id : Option Nat
  category_name : Option String
  deriving DecidableEq

/-- The `LEFT JOIN categories ON cards.category_id = categories.id` of the
dashboard query, applied to one card row. -/
def joinRow (cats : List CategoryRow) (c : CardRow) : DashRow :=
  match cats.find? (fun g => c.category_id == some g.id) with
  | some g => ⟨c.id, c.title, c.content, c.created_at, some g.id, some g.name⟩
  | none => ⟨c.id, c.title, c.content, c.created_at, none, none⟩

/-- `ORDER BY cards.created_at DESC` as a Boolean order on card rows. -/
def cardDescByCreated (a b : CardRow) : Bool :=
  decide (b.created_at ≤ a.created_at)

/-- The dashboard card query: `WHERE cards.user_id = ?`, left-joined with
`categories`, `ORDER BY cards.created_at DESC`. -/
def listCards (db : DB) (uid : Nat) : List DashRow :=
  ((db.cards.filter (fun c => c.user_id == uid)).mergeSort
    cardDescByCreated).map (joinRow db.categories)

/-- The dashboard category query: `WHERE user_id = ? ORDER BY name ASC`. -/
def listCategories (db : DB) (uid : Nat) : List CategoryRow :=
  (db.categories.filter (fun c => c.user_id == uid)).mergeSort
    (fun a b => decide (a.name ≤ b.name))

/-- The statement `INSERT INTO cards (user_id, category_id, title,
content) VALUES (?, ?, ?, ?)` with `categoryId || null` as the category
parameter, under the init script's `fk_cards_category` foreign key:
`some` of the new store, or `none` when the statement errors (a truthy
non-numeric category string, or a category id naming no category row).
A failed statement inserts nothing, and the handler has no try/catch,
so the error surfaces to the caller. -/
def cardInsert (db : DB) (uid : Nat) (title content : String)
    (categoryId : Option String) : Option DB :=
  match categoryParamVal categoryId with
  | none => none
  | some cid =>
    if fkCategoryOk db.categories cid then
      some { db with
        cards := db.cards ++
          [⟨db.nextCardId, uid, cid, title, content, db.clock⟩],
        nextCardId := db.nextCardId + 1,
        clock := db.clock + 1 }
    else none

/-- The card-creation operation's effect on the store (`POST /cards`
after the auth gate): silently skip if `title` or `content` is falsy,
otherwise run the insert statement — which changes nothing when it
errors. -/
def createCard (db : DB) (uid : Nat) (title content : String)
    (categoryId : Option String) : DB :=
  if title = "" ∨ content = "" then db
  else (cardInsert db uid title content categoryId).getD db

/-- The statement `UPDATE cards SET title = ?, content = ?,
category_id = ? WHERE id = ? AND user_id = ?` under `fk_cards_category`:
when no row matches the filter nothing is assigned, so neither the
integer coercion of the category parameter nor the foreign key is
checked and the statement succeeds affecting zero rows; when a row
matches, a non-numeric category string or a dangling category id makes
the statement error and change nothing. -/
def cardUpdate (db : DB) (uid cardId : Nat) (title content : String)
    (categoryId : Option String) : Option DB :=
  if ∃ c ∈ db.cards, c.id = cardId ∧ c.user_id = uid then
    match categoryParamVal categoryId with
    | none => none
    | some cid =>
      if fkCategoryOk db.categories cid then
        some { db with
          cards := db.cards.map (fun c =>
            if c.id = cardId ∧ c.user_id = uid then
              { c with title := title, content := content,
                       category_id := cid }
            else c) }
      else none
  else some db

/-- The card-update operation's effect on the store (`POST /cards/:id`
after the auth gate): silently skip if `title` or `content` is falsy,
otherwise run the update statement — which changes nothing when it
errors. -/
def updateCard (db : DB) (uid cardId : Nat) (title content : String)
    (categoryId : Option String) : DB :=
  if title = "" ∨ content = "" then db
  else (cardUpdate db uid cardId title content categoryId).getD db

/-- The category-creation operation (`POST /categories` after the auth
gate): silently skip if `name` is falsy, otherwise
`INSERT IGNORE INTO categories (user_id, name)` — the `UNIQUE KEY
(user_id, name)` makes the insert a silent no-op when the pair exists. -/
def createCategory (db : DB) (uid : Nat) (name : String) : DB :=
  if name = "" then db
  else if ∃ c ∈ db.categories, c.user_id = uid ∧ c.name = name then db
  else
    { db with
      categories := db.categories ++ [⟨db.nextCategoryId, uid, name⟩],
      nextCategoryId := db.nextCategoryId + 1 }

/-- Whether some category row of `cats` is `uid`'s default category — the
`EXISTS` subquery of the backfill statement. -/
def hasGeneral (cats : List CategoryRow) (uid : Nat) : Bool :=
  cats.any (fun c => c.user_id == uid && c.name == defaultCategoryName)

/-- The backfill statement of `ensureSchema`:
`INSERT INTO categories (user_id, name) SELECT u.id, 'Général' FROM users u
 WHERE NOT EXISTS (...)`, row by row over the users table, threading the
category table and its `AUTO_INCREMENT` counter. -/
def backfillAux : List UserRow → List CategoryRow → Nat →
    List CategoryRow × Nat
  | [], cats, nextId => (cats, nextId)
  | u :: us, cats, nextId =>
    if hasGeneral cats u.id then backfillAux us cats nextId
    else backfillAux us (cats ++ [⟨nextId, u.id, defaultCategoryName⟩])
      (nextId + 1)

/-- The schema part of `ensureSchema`: `CREATE TABLE IF NOT EXISTS
categories` (created empty when missing), then add the
`cards.category_id` column if the information-schema probe finds it
missing (`ALTER TABLE cards ADD COLUMN category_id INT DEFAULT NULL`,
which leaves every existing card with a `NULL` category). -/
def addSchemaBits (db : DB) : DB :=
  let db1 :=
    if db.categoriesTableExists then db
    else { db with categoriesTableExists := true, categories := [] }
  if db1.cardsHasCategoryId then db1
  else { db1 with cardsHasCategoryId := true,
                  cards := db1.cards.map
                    (fun c => { c with category_id := none }) }

/-- The backfill part of `ensureSchema`: insert the default category for
every user lacking one. -/
def backfillGeneral (db : DB) : DB :=
  let r := backfillAux db.users db.categories db.nextCategoryId
  { db with categories := r.1, nextCategoryId := r.2 }

/-- The startup schema bootstrap `ensureSchema`: create-if-missing schema
bits, then backfill the default category. -/
def ensureSchema (db : DB) : DB :=
  backfillGeneral (addSchemaBits db)

/-- Externally observable outcome of a request.  `serverError` is a
database error escaping a handler without try/catch. -/
inductive Response where
  | redirectLogin
  | redirectDashboard
  | renderLoginError (msg : String)
  | renderRegisterError (msg : String)
  | dashboardView (cards : List DashRow) (categories : List CategoryRow)
  | serverError
  deriving DecidableEq

/-- The `POST /login` handler.  A missing body field arrives as
`undefined`, which is falsy exactly like the empty string, so both are
modelled as `""`.  The query `SELECT id, password_hash FROM users WHERE
email = ?` takes the first matching row (`rows[0]`). -/
def postLogin (db : DB) (email password : String) : Response :=
  if email = "" ∨ password = "" then .renderLoginError loginMissingFieldsMsg
  else
    match db.users.find? (fun u => u.email == email) with
    | none => .renderLoginError invalidCredentialsMsg
    | some u =>
      if bcryptCompare password u.password_hash then .redirectDashboard
      else .renderLoginError invalidCredentialsMsg

/-- The `POST /register` handler: validate the three fields, reject a
taken email, insert the user with the hashed password, insert the default
category for the fresh user id, set the session and redirect.  On success
the session user id is the fresh `db.nextUserId`. -/
def postRegister (db : DB) (name email password : String) : DB × Response :=
  if name = "" ∨ email = "" ∨ password = "" then
    (db, .renderRegisterError registerMissingFieldsMsg)
  else if ∃ u ∈ db.users, u.email = email then
    (db, .renderRegisterError duplicateEmailMsg)
  else
    let uid := db.nextUserId
    let db1 : DB :=
      { db with
        users := db.users ++ [⟨uid, name, email, bcryptHash password⟩],
        nextUserId := uid + 1 }
    let db2 : DB :=
      { db1 with
        categories := db1.categories ++
          [⟨db1.nextCategoryId, uid, defaultCategoryName⟩],
        nextCategoryId := db1.nextCategoryId + 1 }
    (db2, .redirectDashboard)

/-- The `GET /dashboard` route behind `requireAuth`. -/
def getDashboard (db : DB) (session : Option Nat) : DB × Response :=
  match requireAuth session with
  | .redirect => (db, .redirectLogin)
  | .authed uid => (db, .dashboardView (listCards db uid) (listCategories db uid))

/-- The `POST /cards` route behind `requireAuth`: a falsy field skips
the insert and redirects; an erroring insert surfaces as a server
error. -/
def postCards (db : DB) (session : Option Nat) (title content : String)
    (categoryId : Option String) : DB × Response :=
  match requireAuth session with
  | .redirect => (db, .redirectLogin)
  | .authed uid =>
    if title = "" ∨ content = "" then (db, .redirectDashboard)
    else
      match cardInsert db uid title content categoryId with
      | some db1 => (db1, .redirectDashboard)
      | none => (db, .serverError)

/-- The `POST /cards/:id` route behind `requireAuth`; the `:id` route
parameter is a string that the store coerces for the `INT` comparison
(a non-numeric string matches no row).  An erroring update surfaces as
a server error. -/
def postCardUpdate (db : DB) (session : Option Nat) (cardIdParam : String)
    (title content : String) (categoryId : Option String) : DB × Response :=
  match requireAuth session with
  | .redirect => (db, .redirectLogin)
  | .authed uid =>
    if title = "" ∨ content = "" then (db, .redirectDashboard)
    else
      match cardUpdate db uid ((sqlIntOfString cardIdParam).getD 0) title
        content categoryId with
      | some db1 => (db1, .redirectDashboard)
      | none => (db, .serverError)

/-- The `POST /categories` route behind `requireAuth`. -/
def postCategories (db : DB) (session : Option Nat) (name : String) :
    DB × Response :=
  match requireAuth session with
  | .redirect => (db, .redirectLogin)
  | .authed uid => (createCategory db uid name, .redirectDashboard)

/-- Number of default-category rows owned by `uid` in `cats`. -/
def defaultCount (cats : List CategoryRow) (uid : Nat) : Nat :=
  cats.countP (fun c => c.user_id == uid && c.name == defaultCategoryName)

/-- The freshly initialized store: full schema, no rows, counters at the
`AUTO_INCREMENT` start. -/
def dbEmpty : DB :=
  { categoriesTableExists := true, cardsHasCategoryId := true,
    users := [], categories := [], cards := [],
    nextUserId := 1, nextCategoryId := 1, nextCardId := 1, clock := 0 }

/-- The store after registering Alice on the fresh store. -/
def dbAlice : DB :=
  (postRegister dbEmpty "Alice" "alice@example.com" "secret").1

/-- `dbAlice` with one card owned by Alice (user id 1). -/
def dbAliceCard : DB :=
  createCard dbAlice 1 "Note 1" "hello" none

/-- `dbAlice` after also registering Bob (user id 2, whose default
category has id 2; Alice's has id 1). -/
def dbAliceBob : DB :=
  (postRegister dbAlice "Bob" "bob@example.com" "hunter2").1

/-! ## Helper lemmas -/

/-- Mapping a function that fixes every member of a list is the identity. -/
theorem map_self_of_fix {α : Type} {l : List α} {f : α → α}
    (h : ∀ a ∈ l, f a = a) : l.map f = l := by
  rw [List.map_congr_left h]
  exact List.map_id' l

/-- Appending one default-category row changes `defaultCount` by one for
its owner and by nothing for anyone else. -/
theorem defaultCount_append_general (cats : List CategoryRow)
    (nid tid uid : Nat) :
    defaultCount (cats ++ [⟨nid, tid, defaultCategoryName⟩]) uid =
      defaultCount cats uid + (if tid = uid then 1 else 0) := by
  unfold defaultCount
  rw [List.countP_append]
  by_cases h : tid = uid <;> simp [List.countP_cons, h]

/-- `hasGeneral` agrees with positivity of `defaultCount`. -/
theorem hasGeneral_count (cats : List CategoryRow) (uid : Nat) :
    hasGeneral cats uid = true ↔ 0 < defaultCount cats uid := by
  simp [hasGeneral, defaultCount, List.any_eq_true, List.countP_pos_iff]

/-- The backfill never removes a default-category row. -/
theorem backfillAux_count_mono (us : List UserRow) (cats : List CategoryRow)
    (nid uid : Nat) :
    defaultCount cats uid ≤ defaultCount (backfillAux us cats nid).1 uid := by
  induction us generalizing cats nid with
  | nil => simp [backfillAux]
  | cons u rest ih =>
    by_cases h : hasGeneral cats u.id = true
    · simp only [backfillAux]
      rw [if_pos h]
      exact ih cats nid
    · simp only [backfillAux]
      rw [if_neg h]
      refine le_trans ?_ (ih _ _)
      rw [defaultCount_append_general]
      omega

/-- The backfill inserts a default-category row only for an owner that
has none, so an owner with at most one such row keeps at most one. -/
theorem backfillAux_count_le (us : List UserRow) (cats : List CategoryRow)
    (nid uid : Nat) (hle : defaultCount cats uid ≤ 1) :
    defaultCount (backfillAux us cats nid).1 uid ≤ 1 := by
  induction us generalizing cats nid with
  | nil => simpa [backfillAux] using hle
  | cons u rest ih =>
    by_cases h : hasGeneral cats u.id = true
    · simp only [backfillAux]
      rw [if_pos h]
      exact ih cats nid hle
    · simp only [backfillAux]
      rw [if_neg h]
      refine ih _ _ ?_
      rw [defaultCount_append_general]
      by_cases he : u.id = uid
      · subst he
        have h0 : defaultCount cats u.id = 0 := by
          by_contra hy
          exact h ((hasGeneral_count cats u.id).mpr (Nat.pos_of_ne_zero hy))
        simp [h0]
      · simpa [he] using hle

/-- After the backfill every listed user owns a default category. -/
theorem backfillAux_covers (us : List UserRow) (cats : List CategoryRow)
    (nid : Nat) :
    ∀ u ∈ us, 0 < defaultCount (backfillAux us cats nid).1 u.id := by
  induction us generalizing cats nid with
  | nil => simp
  | cons w rest ih =>
    intro u hu
    rcases List.mem_cons.mp hu with h | h
    · subst h
      by_cases hw : hasGeneral cats u.id = true
      · simp only [backfillAux]
        rw [if_pos hw]
        exact lt_of_lt_of_le ((hasGeneral_count cats u.id).mp hw)
          (backfillAux_count_mono rest cats nid u.id)
      · simp only [backfillAux]
        rw [if_neg hw]
        refine lt_of_lt_of_le ?_
          (backfillAux_count_mono rest _ (nid + 1) u.id)
        rw [defaultCount_append_general]
        simp
    · by_cases hw : hasGeneral cats w.id = true
      · simp only [backfillAux]
        rw [if_pos hw]
        exact ih cats nid u h
      · simp only [backfillAux]
        rw [if_neg hw]
        exact ih _ _ u h

/-- When every listed user already owns a default category the backfill
does nothing. -/
theorem backfillAux_noop (us : List UserRow) (cats : List CategoryRow)
    (nid : Nat) (h : ∀ u ∈ us, hasGeneral cats u.id = true) :
    backfillAux us cats nid = (cats, nid) := by
  induction us with
  | nil => rfl
  | cons w rest ih =>
    simp only [backfillAux]
    rw [if_pos (h w (by simp))]
    exact ih (fun u hu => h u (by simp [hu]))

/-- Running the backfill on its own output changes nothing. -/
theorem backfillAux_idem (us : List UserRow) (cats : List CategoryRow)
    (nid : Nat) :
    backfillAux us (backfillAux us cats nid).1 (backfillAux us cats nid).2 =
      backfillAux us cats nid := by
  have h := backfillAux_noop us (backfillAux us cats nid).1
    (backfillAux us cats nid).2
    (fun u hu => (hasGeneral_count (backfillAux us cats nid).1 u.id).mpr
      (backfillAux_covers us cats nid u hu))
  rw [h]

/-- `backfillGeneral` is idempotent. -/
theorem backfillGeneral_idem (db : DB) :
    backfillGeneral (backfillGeneral db) = backfillGeneral db := by
  obtain ⟨te, hc, us, cats, cds, nu, nc, ncd, ck⟩ := db
  simp only [backfillGeneral]
  rw [backfillAux_idem]

/-- `addSchemaBits` sets both schema flags. -/
theorem addSchemaBits_flags (db : DB) :
    (addSchemaBits db).categoriesTableExists = true ∧
    (addSchemaBits db).cardsHasCategoryId = true := by
  obtain ⟨te, hc, us, cats, cds, nu, nc, ncd, ck⟩ := db
  cases te <;> cases hc <;> simp [addSchemaBits]

/-- `addSchemaBits` is the identity on a store with the full schema. -/
theorem addSchemaBits_of_full (db : DB)
    (h1 : db.categoriesTableExists = true)
    (h2 : db.cardsHasCategoryId = true) :
    addSchemaBits db = db := by
  obtain ⟨te, hc, us, cats, cds, nu, nc, ncd, ck⟩ := db
  subst h1
  subst h2
  simp [addSchemaBits]

/-- `addSchemaBits` keeps the users table. -/
theorem addSchemaBits_users (db : DB) : (addSchemaBits db).users = db.users := by
  obtain ⟨te, hc, us, cats, cds, nu, nc, ncd, ck⟩ := db
  cases te <;> cases hc <;> simp [addSchemaBits]

/-- `addSchemaBits` keeps the category table or creates it empty. -/
theorem addSchemaBits_categories (db : DB) :
    (addSchemaBits db).categories = db.categories ∨
    (addSchemaBits db).categories = [] := by
  obtain ⟨te, hc, us, cats, cds, nu, nc, ncd, ck⟩ := db
  cases te <;> cases hc <;> simp [addSchemaBits]

/-! ## Claims -/

/-- C9: a request to any protected route (dashboard, card create, card
update, category create) whose session carries no authenticated `userId`
is answered by a redirect to `/login`, the store is untouched, and no
protected data is rendered. -/
theorem c9_unauthenticated_redirect (db : DB)
    (cardIdParam title content name : String) (categoryId : Option String) :
    requireAuth none = AuthCheck.redirect ∧
    getDashboard db none = (db, Response.redirectLogin) ∧
    postCards db none title content categoryId = (db, Response.redirectLogin) ∧
    postCardUpdate db none cardIdParam title content categoryId =
      (db, Response.redirectLogin) ∧
    postCategories db none name = (db, Response.redirectLogin) :=
  ⟨rfl, rfl, rfl, rfl, rfl⟩

/-- C3: a login attempt with an email present in no user row and a login
attempt with an existing email whose password comparison fails render the
same error message. -/
theorem c3_login_errors_indistinguishable (db : DB) (e1 p1 e2 p2 : String)
    (u : UserRow)
    (he1 : e1 ≠ "") (hp1 : p1 ≠ "") (he2 : e2 ≠ "") (hp2 : p2 ≠ "")
    (hunknown : ∀ w ∈ db.users, w.email ≠ e1)
    (hfound : db.users.find? (fun w => w.email == e2) = some u)
    (hmismatch : bcryptCompare p2 u.password_hash = false) :
    postLogin db e1 p1 = Response.renderLoginError invalidCredentialsMsg ∧
    postLogin db e2 p2 = Response.renderLoginError invalidCredentialsMsg ∧
    postLogin db e1 p1 = postLogin db e2 p2 := by
  have hnone : db.users.find? (fun w => w.email == e1) = none := by
    rw [List.find?_eq_none]
    intro w hw
    simp [hunknown w hw]
  have h1 : postLogin db e1 p1 = Response.renderLoginError invalidCredentialsMsg := by
    unfold postLogin
    rw [if_neg (by simp [he1, hp1]), hnone]
  have h2 : postLogin db e2 p2 = Response.renderLoginError invalidCredentialsMsg := by
    unfold postLogin
    rw [if_neg (by simp [he2, hp2]), hfound]
    simp [hmismatch]
  exact ⟨h1, h2, h1.trans h2.symm⟩

/-- Witness for C3 on a concrete store: an unknown email and a wrong
password produce the very same response. -/
theorem c3_login_errors_indistinguishable_witness :
    postLogin dbAlice "bob@example.com" "pw" =
      Response.renderLoginError invalidCredentialsMsg ∧
    postLogin dbAlice "alice@example.com" "wrong" =
      Response.renderLoginError invalidCredentialsMsg ∧
    postLogin dbAlice "bob@example.com" "pw" =
      postLogin dbAlice "alice@example.com" "wrong" :=
  c3_login_errors_indistinguishable dbAlice "bob@example.com" "pw"
    "alice@example.com" "wrong"
    ⟨1, "Alice", "alice@example.com", bcryptHash "secret"⟩
    (by decide) (by decide) (by decide) (by decide)
    (by decide) (by decide) (by decide)

/-- C4: registering with an email that an existing user row already
carries renders the duplicate-email error and leaves the whole store —
in particular the users table — unchanged. -/
theorem c4_duplicate_email_rejected (db : DB) (name email password : String)
    (hn : name ≠ "") (he : email ≠ "") (hp : password ≠ "")
    (hdup : ∃ u ∈ db.users, u.email = email) :
    postRegister db name email password =
      (db, Response.renderRegisterError duplicateEmailMsg) := by
  unfold postRegister
  rw [if_neg (by simp [hn, he, hp]), if_pos hdup]

/-- Witness for C4: registering Bob under Alice's email changes nothing. -/
theorem c4_duplicate_email_rejected_witness :
    postRegister dbAlice "Bob" "alice@example.com" "pw" =
      (dbAlice, Response.renderRegisterError duplicateEmailMsg) :=
  c4_duplicate_email_rejected dbAlice "Bob" "alice@example.com" "pw"
    (by decide) (by decide) (by decide) (by decide)

/-- Counterexample to C5 as stated: with non-empty title and content and
the supplied categoryId `"7"` — truthy, but naming no category row on
Alice's store — the insert violates `fk_cards_category` and stores
nothing: the store is unchanged and the error surfaces, so no card "is
inserted with that categoryId stored as-is". -/
theorem c5_dangling_category_counterexample :
    jsFalsy (some "7") = false ∧
    cardInsert dbAlice 1 "Note 1" "hello" (some "7") = none ∧
    createCard dbAlice 1 "Note 1" "hello" (some "7") = dbAlice ∧
    postCards dbAlice (some 1) "Note 1" "hello" (some "7") =
      (dbAlice, Response.serverError) :=
  ⟨by decide, by decide, by decide, by decide⟩

/-- C5 (amended): card creation is a silent no-op when `title` or
`content` is empty; when they are non-empty and the supplied
`categoryId` names an existing category row, the card is inserted with
that id stored as-is — with no hypothesis that the row belongs to
`uid`, i.e. ownership is never verified — while a supplied id naming no
category row makes the insert raise a foreign-key error and store
nothing; an absent `categoryId` is stored as null. -/
theorem c5_createCard_behavior (db : DB) (uid : Nat) (title content : String)
    (categoryId : Option String) :
    (title = "" ∨ content = "" →
      createCard db uid title content categoryId = db) ∧
    (title ≠ "" → content ≠ "" → ∀ cid : Option Nat,
      categoryParamVal categoryId = some cid →
      fkCategoryOk db.categories cid = true →
      (createCard db uid title content categoryId).cards =
        db.cards ++ [⟨db.nextCardId, uid, cid, title, content, db.clock⟩]) ∧
    (title ≠ "" → content ≠ "" → ∀ cid : Option Nat,
      categoryParamVal categoryId = some cid →
      fkCategoryOk db.categories cid = false →
      cardInsert db uid title content categoryId = none ∧
      createCard db uid title content categoryId = db) ∧
    categoryParamVal none = some none ∧
    fkCategoryOk db.categories none = true := by
  refine ⟨fun h => ?_, fun ht hc cid hcv hfk => ?_,
    fun ht hc cid hcv hfk => ?_, rfl, rfl⟩
  · unfold createCard
    rw [if_pos h]
  · have hins : cardInsert db uid title content categoryId =
        some { db with
          cards := db.cards ++
            [⟨db.nextCardId, uid, cid, title, content, db.clock⟩],
          nextCardId := db.nextCardId + 1,
          clock := db.clock + 1 } := by
      unfold cardInsert
      rw [hcv]
      exact if_pos hfk
    unfold createCard
    rw [if_neg (by tauto), hins]
    rfl
  · have hins : cardInsert db uid title content categoryId = none := by
      unfold cardInsert
      rw [hcv]
      exact if_neg (by simp [hfk])
    refine ⟨hins, ?_⟩
    unfold createCard
    rw [if_neg (by tauto), hins]
    rfl

/-- Witness for C5 (amended), exercising the ownership gap: Bob
(user 2) files a card under category 1, which exists but belongs to
Alice — the insert succeeds and stores Alice's category id as-is. -/
theorem c5_createCard_behavior_witness :
    (createCard dbAliceBob 2 "Note 2" "ref" (some "1")).cards =
      dbAliceBob.cards ++ [⟨dbAliceBob.nextCardId, 2, some 1, "Note 2",
        "ref", dbAliceBob.clock⟩] :=
  (c5_createCard_behavior dbAliceBob 2 "Note 2" "ref" (some "1")).2.1
    (by decide) (by decide) (some 1) (by decide) (by decide)

/-- C6: creating a category whose `(user_id, name)` pair already exists is
a silent no-op, and category creation is idempotent: running it twice
with the same arguments leaves the same store as running it once. -/
theorem c6_createCategory_idempotent (db : DB) (uid : Nat) (name : String) :
    ((∃ c ∈ db.categories, c.user_id = uid ∧ c.name = name) →
      createCategory db uid name = db) ∧
    createCategory (createCategory db uid name) uid name =
      createCategory db uid name := by
  have hno : ∀ d : DB, (∃ c ∈ d.categories, c.user_id = uid ∧ c.name = name) →
      createCategory d uid name = d := by
    intro d hex
    unfold createCategory
    by_cases hn : name = ""
    · rw [if_pos hn]
    · rw [if_neg hn, if_pos hex]
  refine ⟨hno db, ?_⟩
  by_cases hn : name = ""
  · simp [createCategory, hn]
  · by_cases hex : ∃ c ∈ db.categories, c.user_id = uid ∧ c.name = name
    · rw [hno db hex]
      exact hno db hex
    · apply hno
      unfold createCategory
      rw [if_neg hn, if_neg hex]
      exact ⟨⟨db.nextCategoryId, uid, name⟩, by simp, rfl, rfl⟩

/-- Witness for C6: Alice already owns the default category, so creating
it again changes nothing. -/
theorem c6_createCategory_idempotent_witness :
    createCategory dbAlice 1 defaultCategoryName = dbAlice :=
  (c6_createCategory_idempotent dbAlice 1 defaultCategoryName).1 (by decide)

/-- C1: the card update touches no row whose `(id, user_id)` pair differs
from `(k, u1)` — in particular no row of another user — and when `u1` owns
no card with id `k` (wrong owner or nonexistent id) the whole operation
leaves the store unchanged, without surfacing any error. -/
theorem c1_updateCard_owner_scoped (db : DB) (u1 k : Nat)
    (title content : String) (categoryId : Option String) :
    (updateCard db u1 k title content categoryId).cards.length =
      db.cards.length ∧
    (∀ (i : Nat) (r : CardRow), db.cards[i]? = some r →
      ¬(r.id = k ∧ r.user_id = u1) →
      (updateCard db u1 k title content categoryId).cards[i]? = some r) ∧
    ((∀ r ∈ db.cards, ¬(r.id = k ∧ r.user_id = u1)) →
      updateCard db u1 k title content categoryId = db) := by
  unfold updateCard
  by_cases hv : title = "" ∨ content = ""
  · rw [if_pos hv]
    exact ⟨rfl, fun i r h _ => h, fun _ => rfl⟩
  · rw [if_neg hv]
    by_cases hex : ∃ c ∈ db.cards, c.id = k ∧ c.user_id = u1
    · have habs : (∀ r ∈ db.cards, ¬(r.id = k ∧ r.user_id = u1)) → False := by
        intro hall
        obtain ⟨c, hc, hck⟩ := hex
        exact hall c hc hck
      cases hcv : categoryParamVal categoryId with
      | none =>
        have hcu : cardUpdate db u1 k title content categoryId = none := by
          unfold cardUpdate
          rw [if_pos hex, hcv]
        rw [hcu]
        exact ⟨rfl, fun i r h _ => h, fun hall => (habs hall).elim⟩
      | some cid =>
        by_cases hfk : fkCategoryOk db.categories cid = true
        · have hcu : cardUpdate db u1 k title content categoryId =
              some { db with cards := db.cards.map (fun c =>
                if c.id = k ∧ c.user_id = u1 then
                  { c with title := title, content := content,
                           category_id := cid }
                else c) } := by
            unfold cardUpdate
            rw [if_pos hex, hcv]
            exact if_pos hfk
          rw [hcu]
          refine ⟨by simp, fun i r hir hnot => ?_,
            fun hall => (habs hall).elim⟩
          show (db.cards.map _)[i]? = some r
          rw [List.getElem?_map, hir]
          show some (if r.id = k ∧ r.user_id = u1 then _ else r) = some r
          rw [if_neg hnot]
        · have hcu : cardUpdate db u1 k title content categoryId = none := by
            unfold cardUpdate
            rw [if_pos hex, hcv]
            exact if_neg hfk
          rw [hcu]
          exact ⟨rfl, fun i r h _ => h, fun hall => (habs hall).elim⟩
    · have hcu : cardUpdate db u1 k title content categoryId = some db := by
        unfold cardUpdate
        rw [if_neg hex]
      rw [hcu]
      exact ⟨rfl, fun i r h _ => h, fun _ => rfl⟩

/-- Witness for C1: user 2 cannot touch Alice's card 1 — the update is a
silent no-op on the whole store. -/
theorem c1_updateCard_owner_scoped_witness :
    updateCard dbAliceCard 2 1 "forged" "forged" none = dbAliceCard :=
  (c1_updateCard_owner_scoped dbAliceCard 2 1 "forged" "forged" none).2.2
    (by decide)

/-- Counterexample to C10 as stated: the form value `"0"` is NOT falsy
in JavaScript, so `categoryId || null` passes it through — and since no
category ever has id `0`, the insert violates `fk_cards_category` and
stores nothing: the card is neither stored uncategorized nor stored at
all, the statement fails. -/
theorem c10_zero_string_counterexample :
    jsOrNull (some "0") = some "0" ∧
    cardInsert dbAlice 1 "Note 1" "hello" (some "0") = none ∧
    createCard dbAlice 1 "Note 1" "hello" (some "0") = dbAlice ∧
    postCards dbAlice (some 1) "Note 1" "hello" (some "0") =
      (dbAlice, Response.serverError) :=
  ⟨by decide, by decide, by decide, by decide⟩

/-- C10 (amended): in card creation and card update a falsy `categoryId`
form value — an absent field or the empty string — is coerced to null
before storage, yielding an uncategorized card; the string `"0"` is
truthy and is not coerced: it is passed through to the statement, whose
foreign-key check fails on any store where no category has id `0`, so
the insert errors and stores nothing. -/
theorem c10_falsy_category_coercion (db : DB) (uid : Nat)
    (title content : String) (v : Option String)
    (ht : title ≠ "") (hc : content ≠ "") :
    (jsFalsy v = true →
      (createCard db uid title content v).cards =
        db.cards ++ [⟨db.nextCardId, uid, none, title, content, db.clock⟩]) ∧
    (jsFalsy v = true → ∀ k,
      (updateCard db uid k title content v).cards =
        db.cards.map (fun c =>
          if c.id = k ∧ c.user_id = uid then
            { c with title := title, content := content, category_id := none }
          else c)) ∧
    jsOrNull (some "0") = some "0" ∧
    ((∀ c ∈ db.categories, c.id ≠ 0) →
      cardInsert db uid title content (some "0") = none ∧
      createCard db uid title content (some "0") = db) := by
  have hval : jsFalsy v = true → categoryParamVal v = some none := by
    intro h
    unfold categoryParamVal jsOrNull
    rw [if_pos h]
  refine ⟨fun hf => ?_, fun hf k => ?_, by decide, fun hno0 => ?_⟩
  · have hins : cardInsert db uid title content v =
        some { db with
          cards := db.cards ++
            [⟨db.nextCardId, uid, none, title, content, db.clock⟩],
          nextCardId := db.nextCardId + 1,
          clock := db.clock + 1 } := by
      unfold cardInsert
      rw [hval hf]
      exact if_pos rfl
    unfold createCard
    rw [if_neg (by tauto), hins]
    rfl
  · by_cases hex : ∃ c ∈ db.cards, c.id = k ∧ c.user_id = uid
    · have hcu : cardUpdate db uid k title content v =
          some { db with cards := db.cards.map (fun c =>
            if c.id = k ∧ c.user_id = uid then
              { c with title := title, content := content,
                       category_id := none }
            else c) } := by
        unfold cardUpdate
        rw [if_pos hex, hval hf]
        exact if_pos rfl
      unfold updateCard
      rw [if_neg (by tauto), hcu]
      rfl
    · have hcu : cardUpdate db uid k title content v = some db := by
        unfold cardUpdate
        rw [if_neg hex]
      unfold updateCard
      rw [if_neg (by tauto), hcu]
      show db.cards = db.cards.map _
      exact (map_self_of_fix (fun c hc =>
        if_neg (fun hck => hex ⟨c, hc, hck⟩))).symm
  · have hpv : categoryParamVal (some "0") = some (some 0) := by decide
    have hfk : fkCategoryOk db.categories (some 0) = false := by
      unfold fkCategoryOk
      rw [List.any_eq_false]
      intro c hc
      simp [hno0 c hc]
    have hins : cardInsert db uid title content (some "0") = none := by
      unfold cardInsert
      rw [hpv]
      exact if_neg (by simp [hfk])
    refine ⟨hins, ?_⟩
    unfold createCard
    rw [if_neg (by tauto), hins]
    rfl

/-- Witness for C10 (amended): an empty-string `categoryId` yields an
uncategorized card. -/
theorem c10_falsy_category_coercion_witness :
    (createCard dbAlice 1 "Note 1" "hello" (some "")).cards =
      dbAlice.cards ++ [⟨dbAlice.nextCardId, 1, none, "Note 1", "hello",
        dbAlice.clock⟩] :=
  (c10_falsy_category_coercion dbAlice 1 "Note 1" "hello" (some "")
    (by decide) (by decide)).1 (by decide)

/-- C7: the schema bootstrap is idempotent — a second run on the result
of a first run changes neither schema nor data — and it never duplicates
an owner's default category (an owner with at most one default-category
row still has at most one afterwards). -/
theorem c7_ensureSchema_idempotent (db : DB) :
    ensureSchema (ensureSchema db) = ensureSchema db ∧
    (∀ uid : Nat, defaultCount db.categories uid ≤ 1 →
      defaultCount (ensureSchema db).categories uid ≤ 1) := by
  constructor
  · unfold ensureSchema
    rw [addSchemaBits_of_full (backfillGeneral (addSchemaBits db))
      (addSchemaBits_flags db).1 (addSchemaBits_flags db).2,
      backfillGeneral_idem]
  · intro uid hle
    have hbase : defaultCount (addSchemaBits db).categories uid ≤ 1 := by
      rcases addSchemaBits_categories db with h | h <;> rw [h]
      · exact hle
      · simp [defaultCount]
    show defaultCount (backfillAux (addSchemaBits db).users
      (addSchemaBits db).categories (addSchemaBits db).nextCategoryId).1
      uid ≤ 1
    exact backfillAux_count_le _ _ _ _ hbase

/-- Witness for C7: the default-category count stays at most one after
bootstrapping Alice's store. -/
theorem c7_ensureSchema_idempotent_witness :
    defaultCount (ensureSchema dbAlice).categories 1 ≤ 1 :=
  (c7_ensureSchema_idempotent dbAlice).2 1 (by decide)

/-- Counterexample to C2 as stated: the default category created by the
code is named `"Général"`, not `"General"` — after a successful
registration on the fresh store the new user owns no category named
`"General"` at all (and exactly one default-named one). -/
theorem c2_general_name_counterexample :
    (postRegister dbEmpty "Alice" "alice@example.com" "secret").2 =
      Response.redirectDashboard ∧
    (postRegister dbEmpty "Alice" "alice@example.com" "secret").1.categories.countP
      (fun c => c.user_id == 1 && c.name == "General") = 0 ∧
    defaultCount
      (postRegister dbEmpty "Alice" "alice@example.com" "secret").1.categories
      1 = 1 :=
  ⟨by decide, by decide, by decide⟩

/-- C2 (amended, the default category is named `"Général"`): a successful
registration leaves the fresh user with exactly one default category, and
a schema-bootstrap run leaves every user with exactly one default
category (backfilling users that lack one, never duplicating). -/
theorem c2_default_category_exactly_once :
    (∀ (db : DB) (name email password : String),
      name ≠ "" → email ≠ "" → password ≠ "" →
      (∀ u ∈ db.users, u.email ≠ email) →
      (∀ c ∈ db.categories, c.user_id < db.nextUserId) →
      (postRegister db name email password).2 = Response.redirectDashboard ∧
      defaultCount (postRegister db name email password).1.categories
        db.nextUserId = 1) ∧
    (∀ db : DB, (∀ u ∈ db.users, defaultCount db.categories u.id ≤ 1) →
      ∀ u ∈ db.users,
        defaultCount (ensureSchema db).categories u.id = 1) := by
  constructor
  · intro db name email password hn he hp hfresh hbound
    have hval : postRegister db name email password =
        ({ db with
            users := db.users ++ [⟨db.nextUserId, name, email,
              bcryptHash password⟩],
            nextUserId := db.nextUserId + 1,
            categories := db.categories ++
              [⟨db.nextCategoryId, db.nextUserId, defaultCategoryName⟩],
            nextCategoryId := db.nextCategoryId + 1 },
          Response.redirectDashboard) := by
      unfold postRegister
      rw [if_neg (by simp [hn, he, hp]),
        if_neg (by rintro ⟨u, hu, he2⟩; exact hfresh u hu he2)]
    rw [hval]
    refine ⟨rfl, ?_⟩
    show defaultCount (db.categories ++
      [⟨db.nextCategoryId, db.nextUserId, defaultCategoryName⟩])
      db.nextUserId = 1
    rw [defaultCount_append_general]
    have h0 : defaultCount db.categories db.nextUserId = 0 := by
      unfold defaultCount
      rw [List.countP_eq_zero]
      intro c hc
      have := hbound c hc
      simp
      intro h
      omega
    simp [h0]
  · intro db hle u hu
    have hcov := backfillAux_covers (addSchemaBits db).users
      (addSchemaBits db).categories (addSchemaBits db).nextCategoryId u
      (by rw [addSchemaBits_users]; exact hu)
    have hbase : defaultCount (addSchemaBits db).categories u.id ≤ 1 := by
      rcases addSchemaBits_categories db with h | h <;> rw [h]
      · exact hle u hu
      · simp [defaultCount]
    have hcl := backfillAux_count_le (addSchemaBits db).users
      (addSchemaBits db).categories (addSchemaBits db).nextCategoryId u.id
      hbase
    show defaultCount (backfillAux (addSchemaBits db).users
      (addSchemaBits db).categories (addSchemaBits db).nextCategoryId).1
      u.id = 1
    omega

/-- Witness for C2 (amended): registering Alice on the fresh store gives
her exactly one default category, and bootstrapping her store leaves it
that way. -/
theorem c2_default_category_exactly_once_witness :
    ((postRegister dbEmpty "Alice" "alice@example.com" "secret").2 =
        Response.redirectDashboard ∧
      defaultCount
        (postRegister dbEmpty "Alice" "alice@example.com" "secret").1.categories
        dbEmpty.nextUserId = 1) ∧
    defaultCount (ensureSchema dbAlice).categories 1 = 1 :=
  ⟨c2_default_category_exactly_once.1 dbEmpty "Alice" "alice@example.com"
      "secret" (by decide) (by decide) (by decide) (by decide) (by decide),
    c2_default_category_exactly_once.2 dbAlice (by decide)
      ⟨1, "Alice", "alice@example.com", bcryptHash "secret"⟩ (by decide)⟩

/-- The dashboard order is transitive. -/
theorem cardDesc_trans (a b c : CardRow)
    (hab : cardDescByCreated a b = true)
    (hbc : cardDescByCreated b c = true) :
    cardDescByCreated a c = true := by
  simp [cardDescByCreated] at hab hbc ⊢
  omega

/-- The dashboard order is total. -/
theorem cardDesc_total (a b : CardRow) :
    (cardDescByCreated a b || cardDescByCreated b a) = true := by
  simp [cardDescByCreated]
  omega

/-- The dashboard join keeps the card's creation time. -/
theorem joinRow_created_at (cats : List CategoryRow) (c : CardRow) :
    (joinRow cats c).created_at = c.created_at := by
  unfold joinRow
  split <;> rfl

/-- C8: the dashboard card list is, up to its ordering, exactly the join
image of the cards owned by `uid` — so no other user's card ever appears
— and it is ordered by creation time descending. -/
theorem c8_listCards_owner_scoped_sorted (db : DB) (uid : Nat) :
    List.Perm (listCards db uid)
      ((db.cards.filter (fun c => c.user_id == uid)).map
        (joinRow db.categories)) ∧
    List.Pairwise (fun a b => b.created_at ≤ a.created_at)
      (listCards db uid) := by
  constructor
  · exact List.Perm.map _ (List.mergeSort_perm _ _)
  · have hs := List.sorted_mergeSort cardDesc_trans cardDesc_total
      (db.cards.filter (fun c => c.user_id == uid))
    unfold listCards
    rw [List.pairwise_map]
    refine hs.imp ?_
    intro a b hab
    rw [joinRow_created_at, joinRow_created_at]
    simpa [cardDescByCreated] using hab

end Community
